import Mathlib

/-!
Verification of the flight-risk-analysis agents
(`layover_analysis_agent.py`, `weather_intelligence_agent.py`,
`data_analyst_agent.py`) via a shallow embedding in Lean 4.

External collaborators (the generative-text service, the HTTP search
provider, the `json.loads` library routine) are modelled as oracles or
function parameters: the code under analysis depends on them only through
their results.  Python strings are Lean `String`s; Python integers are
`Int`; fallible steps return `Option`/`Except`.
-/

namespace FlightRisk

/-! ### Python-style string primitives -/

/-- Characters treated as whitespace by Python's `str.strip()`. -/
def isPySpace (c : Char) : Bool :=
  c = ' ' || c = '\t' || c = '\n' || c = '\r' || c = '\x0b' || c = '\x0c'

/-- Python `str.strip()`: drop leading and trailing whitespace. -/
def pyStrip (s : String) : String :=
  ⟨((s.data.dropWhile isPySpace).reverse.dropWhile isPySpace).reverse⟩

/-- Python `str.lower()` (ASCII case folding, all inputs here are ASCII). -/
def pyLower (s : String) : String := ⟨s.data.map Char.toLower⟩

/-- Python `str.upper()` (ASCII case folding). -/
def pyUpper (s : String) : String := ⟨s.data.map Char.toUpper⟩

/-- Substring containment on character lists (Python's `needle in hay`). -/
def listContains (needle : List Char) : List Char → Bool
  | [] => needle.isEmpty
  | c :: t => needle.isPrefixOf (c :: t) || listContains needle t

/-- Python's `needle in hay` for strings. -/
def strContains (hay needle : String) : Bool := listContains needle.data hay.data

/-- Python `hay.startswith(pre)`. -/
def pyStartswith (s pre : String) : Bool := pre.data.isPrefixOf s.data

/-- Python `hay.endswith(suf)`. -/
def pyEndswith (s suf : String) : Bool := suf.data.isSuffixOf s.data

/-- Python slice `s[n:]`. -/
def pyDrop (s : String) (n : Nat) : String := ⟨s.data.drop n⟩

/-- Python slice `s[:-n]`. -/
def pyDropLast (s : String) (n : Nat) : String := ⟨s.data.take (s.data.length - n)⟩

/-- Python `s.lstrip("0")`. -/
def pyLstripZero (s : String) : String := ⟨s.data.dropWhile (· = '0')⟩

/-- Value of a list of decimal digit characters. -/
def digitsToNat (ds : List Char) : Nat :=
  ds.foldl (fun a c => a * 10 + (c.toNat - '0'.toNat)) 0

/-- Python `int(s)`: optional sign, then decimal digits, surrounded by
optional whitespace; anything else raises `ValueError`, modelled as `none`. -/
def pyInt (s : String) : Option Int :=
  match (pyStrip s).data with
  | [] => none
  | '-' :: ds => if ds ≠ [] ∧ ds.all Char.isDigit then some (-(digitsToNat ds : Int)) else none
  | '+' :: ds => if ds ≠ [] ∧ ds.all Char.isDigit then some ((digitsToNat ds : Int)) else none
  | ds => if ds.all Char.isDigit then some ((digitsToNat ds : Int)) else none

/-! ### Connection-type classification
(`layover_analysis_agent.py`, lines 49-57) -/

/-- Tier assignment of `analyze_layover_feasibility` (lines 50-57). -/
def connection_type (duration_minutes : Int) : String :=
  if duration_minutes < 45 then "tight"
  else if duration_minutes < 120 then "standard"
  else if duration_minutes < 360 then "comfortable"
  else "plenty_of_time"

/-- Index of a tier in the increasing order of duration, used to state
monotonicity of the classification. -/
def tierIndex (tier : String) : Nat :=
  if tier = "tight" then 0
  else if tier = "standard" then 1
  else if tier = "comfortable" then 2
  else 3

lemma connection_type_cases (d : Int) :
    (d < 45 ∧ connection_type d = "tight") ∨
    (45 ≤ d ∧ d < 120 ∧ connection_type d = "standard") ∨
    (120 ≤ d ∧ d < 360 ∧ connection_type d = "comfortable") ∨
    (360 ≤ d ∧ connection_type d = "plenty_of_time") := by
  unfold connection_type
  split_ifs with h1 h2 h3
  · exact Or.inl ⟨h1, rfl⟩
  · exact Or.inr (Or.inl ⟨by omega, h2, rfl⟩)
  · exact Or.inr (Or.inr (Or.inl ⟨by omega, h3, rfl⟩))
  · exact Or.inr (Or.inr (Or.inr ⟨by omega, rfl⟩))

lemma connection_type_tight_iff (d : Int) : connection_type d = "tight" ↔ d < 45 := by
  rcases connection_type_cases d with ⟨h, hc⟩ | ⟨h1, h2, hc⟩ | ⟨h1, h2, hc⟩ | ⟨h1, hc⟩ <;>
    rw [hc] <;> constructor <;> intro hx
  · exact h
  · rfl
  all_goals first
    | exact absurd hx (by decide)
    | omega

lemma connection_type_standard_iff (d : Int) :
    connection_type d = "standard" ↔ 45 ≤ d ∧ d < 120 := by
  rcases connection_type_cases d with ⟨h, hc⟩ | ⟨h1, h2, hc⟩ | ⟨h1, h2, hc⟩ | ⟨h1, hc⟩ <;>
    rw [hc] <;> constructor <;> intro hx
  · exact absurd hx (by decide)
  · omega
  · exact ⟨h1, h2⟩
  · rfl
  all_goals first
    | exact absurd hx (by decide)
    | omega

lemma connection_type_comfortable_iff (d : Int) :
    connection_type d = "comfortable" ↔ 120 ≤ d ∧ d < 360 := by
  rcases connection_type_cases d with ⟨h, hc⟩ | ⟨h1, h2, hc⟩ | ⟨h1, h2, hc⟩ | ⟨h1, hc⟩ <;>
    rw [hc] <;> constructor <;> intro hx
  · exact absurd hx (by decide)
  · omega
  · exact absurd hx (by decide)
  · omega
  · exact ⟨h1, h2⟩
  · rfl
  · exact absurd hx (by decide)
  · omega

lemma connection_type_plenty_iff (d : Int) :
    connection_type d = "plenty_of_time" ↔ 360 ≤ d := by
  rcases connection_type_cases d with ⟨h, hc⟩ | ⟨h1, h2, hc⟩ | ⟨h1, h2, hc⟩ | ⟨h1, hc⟩ <;>
    rw [hc] <;> constructor <;> intro hx
  · exact absurd hx (by decide)
  · omega
  · exact absurd hx (by decide)
  · omega
  · exact absurd hx (by decide)
  · omega
  · exact h1
  · rfl

lemma tierIndex_connection_type_mono {d e : Int} (h : d ≤ e) :
    tierIndex (connection_type d) ≤ tierIndex (connection_type e) := by
  rcases connection_type_cases d with ⟨a1, hc⟩ | ⟨a1, a2, hc⟩ | ⟨a1, a2, hc⟩ | ⟨a1, hc⟩ <;>
    rcases connection_type_cases e with ⟨b1, he⟩ | ⟨b1, b2, he⟩ | ⟨b1, b2, he⟩ | ⟨b1, he⟩ <;>
    rw [hc, he] <;> first
      | decide
      | (exfalso; omega)

/-- C1: the connection-type classification is the four-tier step function
with boundaries 45, 120, 360, each integer falling in exactly one tier,
and the tier index is monotone in the duration. -/
theorem connection_type_step_function (d e : Int) (hde : d ≤ e) :
    (connection_type d = "tight" ↔ d < 45) ∧
    (connection_type d = "standard" ↔ 45 ≤ d ∧ d < 120) ∧
    (connection_type d = "comfortable" ↔ 120 ≤ d ∧ d < 360) ∧
    (connection_type d = "plenty_of_time" ↔ 360 ≤ d) ∧
    (connection_type d = "tight" ∨ connection_type d = "standard" ∨
      connection_type d = "comfortable" ∨ connection_type d = "plenty_of_time") ∧
    tierIndex (connection_type d) ≤ tierIndex (connection_type e) := by
  refine ⟨connection_type_tight_iff d, connection_type_standard_iff d,
    connection_type_comfortable_iff d, connection_type_plenty_iff d, ?_,
    tierIndex_connection_type_mono hde⟩
  rcases connection_type_cases d with ⟨_, hc⟩ | ⟨_, _, hc⟩ | ⟨_, _, hc⟩ | ⟨_, hc⟩ <;>
    rw [hc] <;> simp

/-- Witness for C1 at concrete durations 30 and 400. -/
theorem connection_type_step_function_witness :
    (connection_type 30 = "tight" ↔ (30 : Int) < 45) ∧
    (connection_type 30 = "standard" ↔ (45 : Int) ≤ 30 ∧ (30 : Int) < 120) ∧
    (connection_type 30 = "comfortable" ↔ (120 : Int) ≤ 30 ∧ (30 : Int) < 360) ∧
    (connection_type 30 = "plenty_of_time" ↔ (360 : Int) ≤ 30) ∧
    (connection_type 30 = "tight" ∨ connection_type 30 = "standard" ∨
      connection_type 30 = "comfortable" ∨ connection_type 30 = "plenty_of_time") ∧
    tierIndex (connection_type 30) ≤ tierIndex (connection_type 400) :=
  connection_type_step_function 30 400 (by decide)

/-! ### Deterministic weather classifier
(`weather_intelligence_agent.py`, `_add_deterministic_risk_assessment`,
lines 429-448) -/

/-- High-risk weather keywords (line 434). -/
def highRiskTerms : List String :=
  ["thunderstorm", "storm", "heavy rain", "heavy snow", "fog", "ice"]

/-- Medium-risk weather keywords (line 437). -/
def mediumRiskTerms : List String := ["rain", "snow", "cloudy", "overcast"]

/-- Low-risk weather keywords (line 440). -/
def lowRiskTerms : List String := ["partly cloudy", "clear", "sunny", "fair"]

/-- `any(term in conditions for term in terms)` over the lower-cased string. -/
def containsAnyTerm (conditions : String) (terms : List String) : Bool :=
  terms.any (fun t => strContains (pyLower conditions) t)

/-- Risk-level core of `_add_deterministic_risk_assessment`: lower-case the
conditions string, check the high bucket, then medium, then low; the level
starts at "low" so an unmatched string stays "low". -/
def classify_weather (conditions : String) : String :=
  if containsAnyTerm conditions highRiskTerms then "high"
  else if containsAnyTerm conditions mediumRiskTerms then "medium"
  else if containsAnyTerm conditions lowRiskTerms then "low"
  else "low"

/-- C2 counterexample: the claim asserts `classify_weather "partly cloudy"`
is low, but "partly cloudy" contains the medium-bucket keyword "cloudy" and
the medium bucket is checked before the low bucket, so the code yields
"medium". -/
theorem classify_weather_partly_cloudy_counterexample :
    classify_weather "partly cloudy" = "medium" ∧
    classify_weather "partly cloudy" ≠ "low" := by
  refine ⟨rfl, ?_⟩
  intro h
  exact absurd h (by decide)

/-- C2 (amended): the classifier lower-cases the string and checks the high
bucket, then medium, then low, defaulting to low; "thunderstorms expected"
maps to high, "light rain" to medium, and "partly cloudy" to medium (not
low), since "cloudy" is a medium keyword and medium is checked first. -/
theorem classify_weather_buckets (s : String) :
    (containsAnyTerm s highRiskTerms = true → classify_weather s = "high") ∧
    (containsAnyTerm s highRiskTerms = false →
      containsAnyTerm s mediumRiskTerms = true → classify_weather s = "medium") ∧
    (containsAnyTerm s highRiskTerms = false →
      containsAnyTerm s mediumRiskTerms = false → classify_weather s = "low") ∧
    classify_weather "thunderstorms expected" = "high" ∧
    classify_weather "light rain" = "medium" ∧
    classify_weather "partly cloudy" = "medium" := by
  refine ⟨?_, ?_, ?_, rfl, rfl, rfl⟩
  · intro h
    simp only [classify_weather, h, if_true]
  · intro h1 h2
    simp only [classify_weather, h1, h2, Bool.false_eq_true, if_false, if_true]
  · intro h1 h2
    simp only [classify_weather, h1, h2, Bool.false_eq_true, if_false]
    split_ifs <;> rfl

/-- Witness for C2's amended bucket properties at concrete inputs. -/
theorem classify_weather_buckets_witness :
    classify_weather "fog" = "high" ∧
    classify_weather "overcast" = "medium" ∧
    classify_weather "hazy" = "low" :=
  ⟨(classify_weather_buckets "fog").1 rfl,
   (classify_weather_buckets "overcast").2.1 rfl rfl,
   (classify_weather_buckets "hazy").2.2.1 rfl rfl⟩

/-! ### Airline code extraction and flight-number cleaning
(`data_analyst_agent.py`, `_extract_airline_code` lines 808-865,
`_clean_flight_number` lines 867-894) -/

/-- Characters matched by the character class `[A-Z0-9]`. -/
def isUpperAlnum (c : Char) : Bool :=
  ('A' ≤ c && c ≤ 'Z') || ('0' ≤ c && c ≤ '9')

/-- The fixed airline-name → code table (lines 823-844). -/
def airline_mapping : List (String × String) :=
  [("delta air lines", "DL"), ("delta", "DL"),
   ("american airlines", "AA"), ("american", "AA"),
   ("united airlines", "UA"), ("united", "UA"),
   ("southwest airlines", "WN"), ("southwest", "WN"),
   ("jetblue airways", "B6"), ("jetblue", "B6"),
   ("alaska airlines", "AS"), ("alaska", "AS"),
   ("spirit airlines", "NK"), ("spirit", "NK"),
   ("frontier airlines", "F9"), ("frontier", "F9"),
   ("hawaiian airlines", "HA"), ("hawaiian", "HA"),
   ("allegiant air", "G4"), ("allegiant", "G4")]

/-- `_extract_airline_code`: the greedy regex match
`re.match(r'^([A-Z0-9]{1,3})', flight_number.upper())` is the longest
prefix of `[A-Z0-9]` characters truncated at 3; on no match fall back to
the name table, then to the initials of the first two words, then to
"Unknown". -/
def extract_airline_code (flight_number airline_name : String) : String :=
  let pre := ((pyUpper flight_number).data.takeWhile isUpperAlnum).take 3
  if flight_number.length ≥ 2 ∧ pre ≠ [] then ⟨pre⟩
  else
    let key := pyStrip (pyLower airline_name)
    match airline_mapping.lookup key with
    | some code => code
    | none =>
      if airline_name.length ≥ 2 then
        match ((pyUpper airline_name).split isPySpace).filter (fun w => w ≠ "") with
        | w1 :: w2 :: _ => (⟨w1.data.take 1⟩ : String) ++ (⟨w2.data.take 1⟩ : String)
        | _ => "Unknown"
      else "Unknown"

/-- `_clean_flight_number`: strip the airline code from the front of the
upper-cased, stripped flight number, then strip leading non-alphanumeric
separators (`re.sub(r'^[^A-Z0-9]+', '', ...)`); keep the original string
when nothing remains or no prefix matches. -/
def clean_flight_number (flight_number airline_code : String) : String :=
  if flight_number = "" ∨ airline_code = "" ∨ airline_code = "Unknown" then
    flight_number
  else
    let fu := pyStrip (pyUpper flight_number)
    let au := pyStrip (pyUpper airline_code)
    if pyStartswith fu au then
      let rest := pyStrip (pyDrop fu au.length)
      let cleaned : String := ⟨rest.data.dropWhile (fun c => ¬ isUpperAlnum c)⟩
      if cleaned ≠ "" then cleaned else flight_number
    else flight_number

/-- C3: evaluation at the claim's own inputs.  The greedy 3-character
alphanumeric prefix match returns "DL1" for "DL1590" — the digit is
captured — contradicting both the claim and the function's inline
documentation, while the other two examples behave as claimed. -/
theorem extract_airline_code_eval :
    extract_airline_code "DL1590" "Delta Air Lines" = "DL1" ∧
    extract_airline_code "B6 615" "JetBlue" = "B6" ∧
    clean_flight_number "AS 41" "AS" = "41" := ⟨rfl, rfl, rfl⟩

/-! ### Duration formatters
(`data_analyst_agent.py`, `_format_duration` lines 654-670,
`_format_duration_from_minutes` lines 672-685) -/

/-- `_format_duration` (legacy variant): Python's `int(minutes)` conversion
is modelled by an `Option Int` argument; a failed conversion
(`ValueError`/`TypeError`) takes the `except` branch and yields "0m". -/
def format_duration (minutes : Option Int) : String :=
  match minutes with
  | none => "0m"
  | some m =>
    let hours := Int.fdiv m 60
    let mins := Int.emod m 60
    if hours > 0 ∧ mins > 0 then toString hours ++ "h " ++ toString mins ++ "m"
    else if hours > 0 then toString hours ++ "h"
    else toString mins ++ "m"

/-- `_format_duration_from_minutes` (classifier variant): non-positive
minutes yield "Unknown". -/
def format_duration_from_minutes (minutes : Int) : String :=
  if minutes ≤ 0 then "Unknown"
  else
    let hours := Int.fdiv minutes 60
    let mins := Int.emod minutes 60
    if hours > 0 ∧ mins > 0 then toString hours ++ "h " ++ toString mins ++ "m"
    else if hours > 0 then toString hours ++ "h"
    else toString mins ++ "m"

/-- C9: the two formatters agree on positive minutes (with the quoted
concrete values), `_format_duration_from_minutes` yields "Unknown" on every
non-positive input, and the legacy `_format_duration` yields "0m" both for
0 and for unconvertible input. -/
theorem duration_formatters_agree_and_diverge (m d : Int) (hm : 0 < m) (hd : d ≤ 0) :
    format_duration (some m) = format_duration_from_minutes m ∧
    format_duration_from_minutes 125 = "2h 5m" ∧
    format_duration_from_minutes 60 = "1h" ∧
    format_duration_from_minutes 5 = "5m" ∧
    format_duration (some 125) = "2h 5m" ∧
    format_duration (some 60) = "1h" ∧
    format_duration (some 5) = "5m" ∧
    format_duration_from_minutes d = "Unknown" ∧
    format_duration (some 0) = "0m" ∧
    format_duration none = "0m" := by
  refine ⟨?_, rfl, rfl, rfl, rfl, rfl, rfl, ?_, rfl, rfl⟩
  · unfold format_duration format_duration_from_minutes
    rw [if_neg (by omega)]
  · unfold format_duration_from_minutes
    rw [if_pos hd]

/-- Witness for C9 at m = 125, d = 0. -/
theorem duration_formatters_agree_and_diverge_witness :
    format_duration (some 125) = format_duration_from_minutes 125 ∧
    format_duration_from_minutes 125 = "2h 5m" ∧
    format_duration_from_minutes 60 = "1h" ∧
    format_duration_from_minutes 5 = "5m" ∧
    format_duration (some 125) = "2h 5m" ∧
    format_duration (some 60) = "1h" ∧
    format_duration (some 5) = "5m" ∧
    format_duration_from_minutes 0 = "Unknown" ∧
    format_duration (some 0) = "0m" ∧
    format_duration none = "0m" :=
  duration_formatters_agree_and_diverge 125 0 (by decide) (by decide)

/-! ### Facts about `pyStrip` -/

lemma dropWhile_idem (p : Char → Bool) (l : List Char) :
    (l.dropWhile p).dropWhile p = l.dropWhile p := by
  induction l with
  | nil => rfl
  | cons a t ih =>
    cases hp : p a with
    | true => simp [List.dropWhile_cons, hp, ih]
    | false => simp [List.dropWhile_cons, hp]

lemma dropWhile_eq_self_of_prefix_part (p : Char → Bool) (B D l : List Char)
    (hBD : B ++ D = l) (hl : l.dropWhile p = l) : B.dropWhile p = B := by
  cases B with
  | nil => rfl
  | cons b t =>
    cases hp : p b with
    | false => simp [List.dropWhile_cons, hp]
    | true =>
      exfalso
      subst hBD
      rw [List.cons_append, List.dropWhile_cons, hp] at hl
      have hlen := congrArg List.length hl
      have hle : ((t ++ D).dropWhile p).length ≤ (t ++ D).length :=
        (List.dropWhile_suffix p).sublist.length_le
      simp only [List.length_cons, List.length_append, if_true] at hlen hle
      omega

lemma pyStrip_idem (s : String) : pyStrip (pyStrip s) = pyStrip s := by
  unfold pyStrip
  have hself : (s.data.dropWhile isPySpace).dropWhile isPySpace
      = s.data.dropWhile isPySpace := dropWhile_idem _ _
  have hC : ((s.data.dropWhile isPySpace).reverse.dropWhile isPySpace).dropWhile isPySpace
      = (s.data.dropWhile isPySpace).reverse.dropWhile isPySpace := dropWhile_idem _ _
  have h1 : ((s.data.dropWhile isPySpace).reverse.dropWhile isPySpace).reverse.dropWhile
        isPySpace
      = ((s.data.dropWhile isPySpace).reverse.dropWhile isPySpace).reverse := by
    obtain ⟨D, hD⟩ :=
      List.dropWhile_suffix (l := (s.data.dropWhile isPySpace).reverse) isPySpace
    apply dropWhile_eq_self_of_prefix_part isPySpace _ D.reverse
      (s.data.dropWhile isPySpace) ?_ hself
    have h2 := congrArg List.reverse hD
    simpa [List.reverse_append] using h2
  rw [h1, List.reverse_reverse, hC]

lemma pyStrip_mk_eq_self (l : List Char) (h1 : l.dropWhile isPySpace = l)
    (h2 : l.reverse.dropWhile isPySpace = l.reverse) : pyStrip ⟨l⟩ = ⟨l⟩ := by
  show (⟨((l.dropWhile isPySpace).reverse.dropWhile isPySpace).reverse⟩ : String) = ⟨l⟩
  rw [h1, h2, List.reverse_reverse]

lemma pyStrip_fenced (b : String) :
    pyStrip ("```json" ++ b ++ "```") = "```json" ++ b ++ "```" := by
  have hbt : isPySpace '`' = false := rfl
  have hdata : ("```json" ++ b ++ "```").data
      = '`' :: (("``json".data ++ b.data) ++ "```".data) := by
    simp [String.data_append]
  have hrev : ("```json" ++ b ++ "```").data.reverse
      = '`' :: (['`', '`'] ++ (b.data.reverse ++ "```json".data.reverse)) := by
    simp [String.data_append, List.reverse_append]
  have h1 : ("```json" ++ b ++ "```").data.dropWhile isPySpace
      = ("```json" ++ b ++ "```").data := by
    rw [hdata]; simp [List.dropWhile_cons, hbt]
  have h2 : ("```json" ++ b ++ "```").data.reverse.dropWhile isPySpace
      = ("```json" ++ b ++ "```").data.reverse := by
    rw [hrev]; simp [List.dropWhile_cons, hbt]
  exact pyStrip_mk_eq_self _ h1 h2

/-! ### JSON values and the code-fence cleaner

`json.loads` is Python's standard-library parser; the agents depend on it
only through its result, so call sites are parametrised over a function
`loads : String → Option JsonVal` (`none` models `json.JSONDecodeError`). -/

/-- Parsed JSON structure. -/
inductive JsonVal where
  | null : JsonVal
  | bool (b : Bool) : JsonVal
  | num (n : Int) : JsonVal
  | str (s : String) : JsonVal
  | arr (elems : List JsonVal) : JsonVal
  | obj (fields : List (String × JsonVal)) : JsonVal

/-- First value bound to a key in an object's field list (Python `d[k]` /
`k in d` for dicts, which never hold duplicate keys). -/
def fieldsGet (fields : List (String × JsonVal)) (k : String) : Option JsonVal :=
  match fields with
  | [] => none
  | (k1, v) :: t => if k1 = k then some v else fieldsGet t k

/-- Key lookup on a JSON value that is an object; `none` otherwise. -/
def objGet (j : JsonVal) (k : String) : Option JsonVal :=
  match j with
  | .obj fs => fieldsGet fs k
  | _ => none

/-- Python dict assignment `d[k] = v`: replace in place if the key exists,
otherwise append. -/
def pyDictSet (fields : List (String × JsonVal)) (k : String) (v : JsonVal) :
    List (String × JsonVal) :=
  if fields.any (fun kv => kv.1 = k) then
    fields.map (fun kv => if kv.1 = k then (k, v) else kv)
  else fields ++ [(k, v)]

/-- The code-fence cleaner shared by every model-response call site:
drop a leading ```json fence and then a trailing ``` fence if present
(`ai_response[7:]` / `ai_response[:-3]`). -/
def clean_fence (s : String) : String :=
  let s1 := if pyStartswith s "```json" then pyDrop s 7 else s
  if pyEndswith s1 "```" then pyDropLast s1 3 else s1

lemma clean_fence_fenced (b : String) : clean_fence ("```json" ++ b ++ "```") = b := by
  unfold clean_fence
  have hdata : ("```json" ++ b ++ "```").data
      = "```json".data ++ (b.data ++ "```".data) := by
    simp [String.data_append]
  have hs : pyStartswith ("```json" ++ b ++ "```") "```json" = true := by
    unfold pyStartswith
    rw [hdata, List.isPrefixOf_iff_prefix]
    exact List.prefix_append _ _
  have hdrop : pyDrop ("```json" ++ b ++ "```") 7 = b ++ "```" := by
    unfold pyDrop
    rw [hdata]
    have h7 : (7 : Nat) = "```json".data.length := rfl
    rw [h7, List.drop_left]
    rfl
  have he : pyEndswith (b ++ "```") "```" = true := by
    unfold pyEndswith
    rw [String.data_append, List.isSuffixOf_iff_suffix]
    exact List.suffix_append _ _
  simp only [hs, eq_self_iff_true, if_true]
  rw [hdrop]
  simp only [he, eq_self_iff_true, if_true]
  unfold pyDropLast
  rw [String.data_append]
  have hlen : (b.data ++ "```".data).length - 3 = b.data.length := by
    simp [List.length_append]
  rw [hlen, List.take_left]

/-! ### The generative-model oracle -/

/-- Oracle for the Gemini generative collaborator.  Each method issues at
most one `generate_content` call per purpose, and the response does not
depend on the prompt in any way the code can observe, so the oracle
records per purpose either the response text (`.ok`) or a raised
exception (`.error`). -/
structure GenModel where
  parseResponse : Except String String
  analysisResponse : Except String String
  batchResponse : Except String String

/-! ### Layover analysis agent (`layover_analysis_agent.py`) -/

/-- `_parse_duration_with_ai` (lines 99-124): no model yields `None`; a
raised call or a response `int()` cannot convert yields `None` via the
`except` handler; otherwise the parsed integer. -/
def parse_duration_with_ai (m : Option GenModel) : Option Int :=
  match m with
  | none => none
  | some g =>
    match g.parseResponse with
    | .error _ => none
    | .ok txt => pyInt (pyStrip txt)

/-- Cleaning applied to the single-analysis model response (lines
213-219): strip, then fence removal, with no final strip. -/
def layoverClean (response : String) : String := clean_fence (pyStrip response)

/-- Cleaning applied to the weather and batch model responses (weather
agent lines 201-208 and 284-289, layover agent lines 407-414): strip,
fence removal, strip again. -/
def weatherClean (response : String) : String := pyStrip (clean_fence (pyStrip response))

/-- The parse-failure marker of `_get_ai_layover_analysis` (line 227). -/
def layover_parse_error_marker : JsonVal :=
  .obj [("error", .str "❌ AI layover analysis failed - invalid response format")]

/-- The unavailable/raised marker of `_get_ai_layover_analysis`
(lines 130, 231). -/
def layover_unavailable_marker : JsonVal :=
  .obj [("error", .str "❌ AI layover analysis system unavailable")]

/-- `_get_ai_layover_analysis` (lines 126-231).  The inner
`_parse_duration_with_ai` call at line 134 feeds only the prompt and
catches its own exceptions, so it cannot affect the result. -/
def get_ai_layover_analysis (m : Option GenModel)
    (loads : String → Option JsonVal) : JsonVal :=
  match m with
  | none => layover_unavailable_marker
  | some g =>
    match g.analysisResponse with
    | .error _ => layover_unavailable_marker
    | .ok txt =>
      match loads (layoverClean txt) with
      | some analysis => analysis
      | none => layover_parse_error_marker

/-- Result of Python's `'error' in ai_analysis` followed (on `True`) by
`ai_analysis['error']`, by runtime type of the parsed value: key lookup on
dicts, element membership on lists and substring test on strings (either
of which makes the subsequent string-keyed indexing raise `TypeError`),
and an immediate `TypeError` on the remaining types. -/
inductive ErrKeyCheck where
  | noKey : ErrKeyCheck
  | key (v : JsonVal) : ErrKeyCheck
  | raised : ErrKeyCheck

def errorKeyCheck (j : JsonVal) : ErrKeyCheck :=
  match j with
  | .obj fs =>
    match fieldsGet fs "error" with
    | some v => .key v
    | none => .noKey
  | .arr xs =>
    if xs.any (fun x => match x with | .str s => s = "error" | _ => false)
    then .raised else .noKey
  | .str s => if strContains s "error" then .raised else .noKey
  | _ => .raised

/-- The fields of the dict returned by `analyze_layover_feasibility`;
absent keys are `none`.  The wall-clock `analysis_timestamp` of the
success payload is elided. -/
structure LayoverPayload where
  error : Option JsonVal
  airport_code : String
  duration_minutes : Option Int
  duration_formatted : Option String
  connection_type : Option String
  ai_analysis : Option JsonVal
  data_source : Option String
  analysis_failed : Bool
  analysis_successful : Bool

/-- `analyze_layover_feasibility` (lines 32-97).  The returned `Bool`
records whether `_get_ai_layover_analysis` — the model call for the
analysis — was invoked.  In the blanket `except` payload (line 93) the
Python error text interpolates `str(e)`; the exception-specific suffix is
elided. -/
def analyze_layover_feasibility (m : Option GenModel)
    (loads : String → Option JsonVal) (duration_str airport_code : String) :
    LayoverPayload × Bool :=
  match parse_duration_with_ai m with
  | none =>
    ({ error := some (.str ("Unable to parse duration: " ++ duration_str)),
       airport_code := airport_code, duration_minutes := none,
       duration_formatted := none, connection_type := none, ai_analysis := none,
       data_source := none, analysis_failed := true, analysis_successful := false },
     false)
  | some dm =>
    let ct := connection_type dm
    match m with
    | none =>
      ({ error := some (.str "AI analysis model not available"),
         airport_code := airport_code, duration_minutes := some dm,
         duration_formatted := none, connection_type := some ct, ai_analysis := none,
         data_source := none, analysis_failed := true, analysis_successful := false },
       false)
    | some g =>
      let ai := get_ai_layover_analysis (some g) loads
      match errorKeyCheck ai with
      | .key v =>
        ({ error := some v, airport_code := airport_code,
           duration_minutes := some dm, duration_formatted := none,
           connection_type := some ct, ai_analysis := none, data_source := none,
           analysis_failed := true, analysis_successful := false },
         true)
      | .raised =>
        ({ error := some (.str "Layover analysis failed: "),
           airport_code := airport_code, duration_minutes := none,
           duration_formatted := none, connection_type := none, ai_analysis := none,
           data_source := none, analysis_failed := true, analysis_successful := false },
         true)
      | .noKey =>
        ({ error := none, airport_code := airport_code,
           duration_minutes := some dm, duration_formatted := some duration_str,
           connection_type := some ct, ai_analysis := some ai,
           data_source := some "Real AI Analysis",
           analysis_failed := false, analysis_successful := true },
         true)

/-- C4: when the duration cannot be parsed or the model is unavailable,
`analyze_layover_feasibility` makes no analysis model call and returns an
error payload with `analysis_failed: true`, carrying no analysis object
and hence no risk score or other fabricated numbers. -/
theorem layover_failure_no_model_call (m : Option GenModel)
    (loads : String → Option JsonVal) (duration_str airport_code : String)
    (h : parse_duration_with_ai m = none ∨ m = none) :
    (analyze_layover_feasibility m loads duration_str airport_code).2 = false ∧
    (analyze_layover_feasibility m loads duration_str airport_code).1.analysis_failed = true ∧
    (analyze_layover_feasibility m loads duration_str airport_code).1.ai_analysis = none ∧
    (analyze_layover_feasibility m loads duration_str airport_code).1.analysis_successful
      = false ∧
    (analyze_layover_feasibility m loads duration_str airport_code).1.error.isSome = true := by
  have hp : parse_duration_with_ai m = none := by
    rcases h with h | h
    · exact h
    · rw [h]; rfl
  simp [analyze_layover_feasibility, hp]

/-- Witness for C4: an absent model at a concrete input. -/
theorem layover_failure_no_model_call_witness :
    (analyze_layover_feasibility none (fun _ => none) "1h 30m" "ORD").2 = false ∧
    (analyze_layover_feasibility none (fun _ => none) "1h 30m" "ORD").1.analysis_failed
      = true ∧
    (analyze_layover_feasibility none (fun _ => none) "1h 30m" "ORD").1.ai_analysis = none ∧
    (analyze_layover_feasibility none (fun _ => none) "1h 30m" "ORD").1.analysis_successful
      = false ∧
    (analyze_layover_feasibility none (fun _ => none) "1h 30m" "ORD").1.error.isSome
      = true :=
  layover_failure_no_model_call none (fun _ => none) "1h 30m" "ORD" (Or.inr rfl)

/-! ### Weather intelligence agent (`weather_intelligence_agent.py`) -/

/-- All-decimal-digit non-empty string. -/
def allDigits (s : String) : Bool := s ≠ "" && s.data.all Char.isDigit

/-- `datetime.strptime(s, "%Y-%m-%d")`: dash-separated year, month and day
fields of at most 4/2/2 digits, month 1-12 and day 1-31 (the
month-specific day upper bounds of the library are elided; all call sites
pass well-formed or wholly malformed dates). -/
def parseYmd (s : String) : Option (Nat × Nat × Nat) :=
  match s.splitOn "-" with
  | [y, mo, d] =>
    if allDigits y && allDigits mo && allDigits d
        && y.length ≤ 4 && mo.length ≤ 2 && d.length ≤ 2 then
      let mn := digitsToNat mo.data
      let dn := digitsToNat d.data
      if 1 ≤ mn && mn ≤ 12 && 1 ≤ dn && dn ≤ 31 then
        some (digitsToNat y.data, mn, dn)
      else none
    else none
  | _ => none

/-- `_get_fallback_weather_analysis` (lines 307-325): the fixed
medium-risk assessment. -/
def get_fallback_weather_analysis (airport_code analysis_type : String) : JsonVal :=
  .obj [("weather_risk", .obj [("level", .str "medium"),
          ("description", .str ("Weather analysis for " ++ airport_code
            ++ " currently unavailable, using standard seasonal patterns"))]),
        ("weather_conditions",
          .obj [("conditions", .str "Weather conditions analysis pending")]),
        ("airport_complexity", .obj [("complexity", .str "medium"),
          ("description", .str ("Airport complexity analysis for " ++ airport_code
            ++ " currently unavailable, standard operational assessment applied")),
          ("concerns", .arr [.str "Analysis temporarily unavailable"])]),
        ("data_source", .str ("Fallback " ++ analysis_type ++ " analysis"))]

/-- `_analyze_seasonal_patterns` (lines 228-305): an unparsable date, a
raised model call, an unparsable response, or a parsed non-dict (for
which `{**analysis, ...}` raises) all land in the `except` handler's
fallback; a parsed dict gets `data_source` overwritten by dict-literal
merge semantics. -/
def analyze_seasonal_patterns (gen : Except String String)
    (loads : String → Option JsonVal) (airport_code flight_date : String) : JsonVal :=
  match parseYmd flight_date with
  | none => get_fallback_weather_analysis airport_code "seasonal"
  | some _ =>
    match gen with
    | .error _ => get_fallback_weather_analysis airport_code "seasonal"
    | .ok txt =>
      match loads (weatherClean txt) with
      | none => get_fallback_weather_analysis airport_code "seasonal"
      | some (.obj fs) =>
        .obj (pyDictSet fs "data_source" (.str "Seasonal weather patterns analysis"))
      | some _ => get_fallback_weather_analysis airport_code "seasonal"

/-- `_analyze_realtime_weather` (lines 147-226).  `_get_serpapi_weather`
catches its own exceptions and only feeds the prompt, so it is elided; a
raised model call falls back to the seasonal path (which never raises, so
the second-level `except` at line 226 is unreachable); an unparsable
response yields the fixed "real-time" fallback. -/
def analyze_realtime_weather (genRT genSeason : Except String String)
    (loads : String → Option JsonVal) (airport_code flight_date : String) : JsonVal :=
  match genRT with
  | .error _ => analyze_seasonal_patterns genSeason loads airport_code flight_date
  | .ok txt =>
    match loads (weatherClean txt) with
    | none => get_fallback_weather_analysis airport_code "real-time"
    | some analysis => analysis

/-- C5: a model response of exactly ```json + body + ``` parses at both
call sites to the same structure as the bare body, for any parser that is
insensitive to surrounding whitespace (as `json.loads` is); and when the
cleaned text does not parse, the layover site returns its error marker and
the weather site its fixed medium-risk fallback — both total functions, so
no parse exception can propagate. -/
theorem fenced_json_roundtrip (loads : String → Option JsonVal)
    (b t apt fdate : String) (v : JsonVal) (g g2 : GenModel)
    (gs : Except String String)
    (hws : ∀ s, loads (pyStrip s) = loads s) :
    (loads b = some v → g.analysisResponse = .ok ("```json" ++ b ++ "```") →
      get_ai_layover_analysis (some g) loads = v) ∧
    (loads b = some v →
      analyze_realtime_weather (.ok ("```json" ++ b ++ "```")) gs loads apt fdate = v) ∧
    (g2.analysisResponse = .ok t → loads (layoverClean t) = none →
      get_ai_layover_analysis (some g2) loads = layover_parse_error_marker) ∧
    (loads (weatherClean t) = none →
      analyze_realtime_weather (.ok t) gs loads apt fdate
        = get_fallback_weather_analysis apt "real-time") := by
  have hlc : layoverClean ("```json" ++ b ++ "```") = b := by
    unfold layoverClean
    rw [pyStrip_fenced, clean_fence_fenced]
  have hwc : loads (weatherClean ("```json" ++ b ++ "```")) = loads b := by
    unfold weatherClean
    rw [pyStrip_fenced, clean_fence_fenced, hws]
  refine ⟨?_, ?_, ?_, ?_⟩
  · intro hb hg
    simp only [get_ai_layover_analysis, hg, hlc, hb]
  · intro hb
    simp only [analyze_realtime_weather, hwc, hb]
  · intro hg hn
    simp only [get_ai_layover_analysis, hg, hn]
  · intro hn
    simp only [analyze_realtime_weather, hn]

/-- Concrete parser for the C5 witness: accepts exactly the body "1". -/
def loadsW (s : String) : Option JsonVal :=
  if pyStrip s = "1" then some (.num 1) else none

lemma loadsW_strip_invariant (s : String) : loadsW (pyStrip s) = loadsW s := by
  unfold loadsW
  rw [pyStrip_idem]

/-- Concrete oracles for the C5 witness. -/
def genW : GenModel :=
  { parseResponse := .ok "x", analysisResponse := .ok ("```json" ++ "1" ++ "```"),
    batchResponse := .ok "x" }

def genW2 : GenModel :=
  { parseResponse := .ok "x", analysisResponse := .ok "x", batchResponse := .ok "x" }

/-- Witness for C5 at body "1" and unparsable text "x". -/
theorem fenced_json_roundtrip_witness :
    get_ai_layover_analysis (some genW) loadsW = .num 1 ∧
    analyze_realtime_weather (.ok ("```json" ++ "1" ++ "```")) (.error "e") loadsW
      "ORD" "2025-01-01" = .num 1 ∧
    get_ai_layover_analysis (some genW2) loadsW = layover_parse_error_marker ∧
    analyze_realtime_weather (.ok "x") (.error "e") loadsW "ORD" "2025-01-01"
      = get_fallback_weather_analysis "ORD" "real-time" :=
  have h := fenced_json_roundtrip loadsW "1" "x" "ORD" "2025-01-01" (.num 1)
    genW genW2 (.error "e") loadsW_strip_invariant
  ⟨h.1 rfl rfl, h.2.1 rfl, h.2.2.1 rfl rfl, h.2.2.2 rfl⟩

/-! ### Batch layover analysis (`layover_analysis_agent.py`, lines 326-471) -/

/-- Typed view of a batch layover descriptor; absent dict keys are
`none`.  The prompt-only fields (weather_risk, airport_complexity,
arrival_time, travel_date) are elided since the oracle response does not
depend on the prompt. -/
structure BatchLayoverData where
  airport_code : Option String
  duration_str : Option String

/-- `analyze_batch_layover_feasibility` (lines 326-435): an empty input
returns `{}` at once; a missing model raises `AttributeError` on
`self.gemini_model.generate_content` (there is no availability check on
this path), caught by the blanket handler, yielding `{}`; a raised call
yields `{}`; an unparsable response yields `{}`; a parsed non-dict yields
`{}`; otherwise the parsed object's fields are returned unchanged. -/
def analyze_batch_layover_feasibility (m : Option GenModel)
    (loads : String → Option JsonVal) (layover_data_list : List BatchLayoverData) :
    List (String × JsonVal) :=
  if layover_data_list.isEmpty then []
  else
    match m with
    | none => []
    | some g =>
      match g.batchResponse with
      | .error _ => []
      | .ok txt =>
        match loads (weatherClean txt) with
        | some (.obj fields) => fields
        | _ => []

/-- C7: every failure mode of the batch path — model unavailable, raised
model call, unparsable response, parsed non-object — returns the empty
mapping, fabricating no per-airport results. -/
theorem batch_layover_failures_empty (loads : String → Option JsonVal)
    (l : List BatchLayoverData) (g g2 g3 : GenModel) (e t1 t2 : String) (v : JsonVal) :
    analyze_batch_layover_feasibility none loads l = [] ∧
    (g.batchResponse = .error e →
      analyze_batch_layover_feasibility (some g) loads l = []) ∧
    (g2.batchResponse = .ok t1 → loads (weatherClean t1) = none →
      analyze_batch_layover_feasibility (some g2) loads l = []) ∧
    (g3.batchResponse = .ok t2 → loads (weatherClean t2) = some v →
      (∀ fields, v ≠ .obj fields) →
      analyze_batch_layover_feasibility (some g3) loads l = []) := by
  refine ⟨?_, ?_, ?_, ?_⟩
  · unfold analyze_batch_layover_feasibility
    split <;> rfl
  · intro h
    simp only [analyze_batch_layover_feasibility, h]
    split <;> rfl
  · intro h1 h2
    simp only [analyze_batch_layover_feasibility, h1, h2]
    split <;> rfl
  · intro h1 h2 hv
    simp only [analyze_batch_layover_feasibility, h1, h2]
    cases v with
    | obj fields => exact absurd rfl (hv fields)
    | null => split <;> rfl
    | bool b => split <;> rfl
    | num n => split <;> rfl
    | str s => split <;> rfl
    | arr xs => split <;> rfl

/-- Parser and oracles for the C7 witness. -/
def loadsB (s : String) : Option JsonVal :=
  if s = "y" then some (.arr []) else none

def genB1 : GenModel :=
  { parseResponse := .ok "x", analysisResponse := .ok "x", batchResponse := .error "boom" }

def genB2 : GenModel :=
  { parseResponse := .ok "x", analysisResponse := .ok "x", batchResponse := .ok "x" }

def genB3 : GenModel :=
  { parseResponse := .ok "x", analysisResponse := .ok "x", batchResponse := .ok "y" }

/-- Witness for C7 at a one-element input across all four failure modes. -/
theorem batch_layover_failures_empty_witness :
    analyze_batch_layover_feasibility none loadsB [⟨some "ORD", some "1h"⟩] = [] ∧
    analyze_batch_layover_feasibility (some genB1) loadsB [⟨some "ORD", some "1h"⟩] = [] ∧
    analyze_batch_layover_feasibility (some genB2) loadsB [⟨some "ORD", some "1h"⟩] = [] ∧
    analyze_batch_layover_feasibility (some genB3) loadsB [⟨some "ORD", some "1h"⟩] = [] :=
  have h := batch_layover_failures_empty loadsB [⟨some "ORD", some "1h"⟩]
    genB1 genB2 genB3 "boom" "x" "y" (.arr [])
  ⟨h.1, h.2.1 rfl, h.2.2.1 rfl rfl,
   h.2.2.2 rfl rfl (fun fields hf => JsonVal.noConfusion hf)⟩

/-- The airport key of a batch descriptor (`layover_data.get('airport_code',
'Unknown')`, line 442). -/
def batchKey (ld : BatchLayoverData) : String := ld.airport_code.getD "Unknown"

/-- One fallback result entry (`_create_fallback_batch_analysis`, lines
446-469), with risk level, score and feasibility chosen by the duration
thresholds at lines 447-458. -/
def fallback_batch_entry (duration_minutes : Int) : JsonVal :=
  let rl :=
    if duration_minutes ≥ 120 then ("low", (30 : Int), "Comfortable connection time")
    else if duration_minutes ≥ 60 then ("medium", (50 : Int), "Adequate connection time")
    else ("high", (75 : Int), "Tight connection time")
  .obj [("risk_level", .str rl.1), ("risk_score", .num rl.2.1),
        ("overall_feasibility", .str rl.2.2),
        ("minimum_connection_time", .num 60),
        ("buffer_analysis", .obj [("buffer_adequacy", .str "unknown")]),
        ("recommendations",
          .arr [.str "Monitor flight status", .str "Allow extra time"]),
        ("risk_factors", .arr [.str "Fallback analysis used"]),
        ("contextual_analysis", .obj [("airport_specific", .str "Fallback analysis")])]

/-- Modelled from the spec: `_fallback_parse_duration`, the duration-string
parser the batch fallback path invokes at line 444, is not among the
provided source files; `_create_fallback_batch_analysis` is therefore
parametrised over it as a total minutes parser `fallback_parse`, per the
spec's "buckets by fixed duration thresholds" description of this path. -/
def create_fallback_batch_analysis (fallback_parse : String → Int)
    (layover_data_list : List BatchLayoverData) : List (String × JsonVal) :=
  layover_data_list.foldl
    (fun results ld =>
      pyDictSet results (batchKey ld)
        (fallback_batch_entry (fallback_parse (ld.duration_str.getD "1h"))))
    []

lemma pyDictSet_fresh (acc : List (String × JsonVal)) (k : String) (v : JsonVal)
    (h : ∀ kv ∈ acc, kv.1 ≠ k) : pyDictSet acc k v = acc ++ [(k, v)] := by
  have hcond : ¬(acc.any (fun kv => kv.1 = k) = true) := by
    rw [List.any_eq_true]
    rintro ⟨kv, hkv, heq⟩
    exact h kv hkv (by simpa using heq)
  unfold pyDictSet
  rw [if_neg hcond]

lemma create_fallback_eq_map (fallback_parse : String → Int)
    (l : List BatchLayoverData) (acc : List (String × JsonVal))
    (hfresh : ∀ ld ∈ l, ∀ kv ∈ acc, kv.1 ≠ batchKey ld)
    (hnd : (l.map batchKey).Nodup) :
    l.foldl
      (fun results ld =>
        pyDictSet results (batchKey ld)
          (fallback_batch_entry (fallback_parse (ld.duration_str.getD "1h"))))
      acc
    = acc ++ l.map (fun ld =>
        (batchKey ld, fallback_batch_entry (fallback_parse (ld.duration_str.getD "1h")))) := by
  induction l generalizing acc with
  | nil => simp
  | cons hd tl ih =>
    rw [List.foldl_cons, pyDictSet_fresh _ _ _ (fun kv hkv => hfresh hd (by simp) kv hkv)]
    rw [List.map_cons, List.nodup_cons] at hnd
    rw [ih (acc ++ [(batchKey hd, _)]) ?_ hnd.2]
    · simp
    · intro ld hld kv hkv
      rcases List.mem_append.mp hkv with hkv | hkv
      · exact hfresh ld (by simp [hld]) kv hkv
      · simp only [List.mem_singleton] at hkv
        subst hkv
        intro hcontra
        have hcon2 : batchKey hd = batchKey ld := hcontra
        exact hnd.1 (hcon2 ▸ List.mem_map_of_mem batchKey hld)

lemma fieldsGet_map_of_mem (f : BatchLayoverData → JsonVal)
    (l : List BatchLayoverData) (e : BatchLayoverData) (he : e ∈ l)
    (hnd : (l.map batchKey).Nodup) :
    fieldsGet (l.map (fun ld => (batchKey ld, f ld))) (batchKey e) = some (f e) := by
  induction l with
  | nil => cases he
  | cons hd tl ih =>
    rw [List.map_cons, List.nodup_cons] at hnd
    rcases List.mem_cons.mp he with he1 | he1
    · subst he1
      simp [fieldsGet]
    · have hne : batchKey hd ≠ batchKey e := by
        intro hcontra
        exact hnd.1 (hcontra ▸ List.mem_map_of_mem batchKey he1)
      simp only [List.map_cons, fieldsGet, if_neg hne]
      exact ih he1 hnd.2

/-- C8: for pairwise-distinct airport codes, the batch fallback path maps
each descriptor's airport to an entry whose risk tier and fabricated score
are determined solely by the parsed duration: ≥ 120 minutes is low / 30,
60-119 is medium / 50, and < 60 is high / 75. -/
theorem fallback_batch_thresholds (fallback_parse : String → Int)
    (l : List BatchLayoverData) (e : BatchLayoverData) (d : Int) (he : e ∈ l)
    (hnd : (l.map batchKey).Nodup) :
    fieldsGet (create_fallback_batch_analysis fallback_parse l) (batchKey e)
      = some (fallback_batch_entry (fallback_parse (e.duration_str.getD "1h"))) ∧
    (120 ≤ d → objGet (fallback_batch_entry d) "risk_level" = some (.str "low") ∧
      objGet (fallback_batch_entry d) "risk_score" = some (.num 30)) ∧
    (60 ≤ d → d < 120 →
      objGet (fallback_batch_entry d) "risk_level" = some (.str "medium") ∧
      objGet (fallback_batch_entry d) "risk_score" = some (.num 50)) ∧
    (d < 60 → objGet (fallback_batch_entry d) "risk_level" = some (.str "high") ∧
      objGet (fallback_batch_entry d) "risk_score" = some (.num 75)) := by
  refine ⟨?_, ?_, ?_, ?_⟩
  · unfold create_fallback_batch_analysis
    rw [create_fallback_eq_map fallback_parse l [] (by simp) hnd, List.nil_append]
    exact fieldsGet_map_of_mem _ l e he hnd
  · intro hge
    unfold fallback_batch_entry
    rw [if_pos (by omega)]
    exact ⟨rfl, rfl⟩
  · intro h60 h120
    unfold fallback_batch_entry
    rw [if_neg (by omega), if_pos (by omega)]
    exact ⟨rfl, rfl⟩
  · intro hlt
    unfold fallback_batch_entry
    rw [if_neg (by omega), if_neg (by omega)]
    exact ⟨rfl, rfl⟩

/-- Witness for C8: one descriptor, parser returning 90 minutes. -/
theorem fallback_batch_thresholds_witness :
    fieldsGet (create_fallback_batch_analysis (fun _ => 90) [⟨some "ORD", some "1h"⟩])
        (batchKey ⟨some "ORD", some "1h"⟩)
      = some (fallback_batch_entry 90) ∧
    ((120 : Int) ≤ 90 →
      objGet (fallback_batch_entry 90) "risk_level" = some (.str "low") ∧
      objGet (fallback_batch_entry 90) "risk_score" = some (.num 30)) ∧
    ((60 : Int) ≤ 90 → (90 : Int) < 120 →
      objGet (fallback_batch_entry 90) "risk_level" = some (.str "medium") ∧
      objGet (fallback_batch_entry 90) "risk_score" = some (.num 50)) ∧
    ((90 : Int) < 60 →
      objGet (fallback_batch_entry 90) "risk_level" = some (.str "high") ∧
      objGet (fallback_batch_entry 90) "risk_score" = some (.num 75)) :=
  fallback_batch_thresholds (fun _ => 90) [⟨some "ORD", some "1h"⟩]
    ⟨some "ORD", some "1h"⟩ 90 (by simp) (by simp)

/-! ### Data analyst agent: time formatting and city resolution
(`data_analyst_agent.py`) -/

/-- `datetime.strptime(s, "%Y-%m-%d %H:%M")`: date part as in `parseYmd`,
then hour 0-23 and minute 0-59 of at most 2 digits each. -/
def parseYmdHm (s : String) : Option (Nat × Nat × Nat × Nat × Nat) :=
  match s.splitOn " " with
  | [datePart, timePart] =>
    match parseYmd datePart, timePart.splitOn ":" with
    | some (y, mo, d), [h, mi] =>
      if allDigits h && allDigits mi && h.length ≤ 2 && mi.length ≤ 2 then
        let hn := digitsToNat h.data
        let mn := digitsToNat mi.data
        if hn ≤ 23 && mn ≤ 59 then some (y, mo, d, hn, mn) else none
      else none
    | _, _ => none
  | _ => none

/-- Zero-padded two-digit rendering (`%I` / `%M`). -/
def pad2 (n : Nat) : String := if n < 10 then "0" ++ toString n else toString n

/-- `_format_serpapi_time` (lines 687-699): empty or "Unknown" input stays
"Unknown"; a parsable timestamp renders as `strftime("%I:%M %p").lstrip("0")`;
anything else passes through unchanged via the `except` handler. -/
def format_serpapi_time (time_str : String) : String :=
  if time_str = "" || time_str = "Unknown" then "Unknown"
  else
    match parseYmdHm time_str with
    | none => time_str
    | some (_, _, _, h, mi) =>
      let h12 := if h % 12 = 0 then 12 else h % 12
      pyLstripZero (pad2 h12 ++ ":" ++ pad2 mi ++ " " ++ (if h < 12 then "AM" else "PM"))

/-- The airport-code → city table (`_extract_city_from_airport_code`,
lines 713-736). -/
def airport_city_mapping : List (String × String) :=
  [("JFK", "New York"), ("SFO", "San Francisco"), ("LAX", "Los Angeles"),
   ("ORD", "Chicago"), ("DFW", "Dallas"), ("ATL", "Atlanta"), ("DEN", "Denver"),
   ("SEA", "Seattle"), ("LAS", "Las Vegas"), ("IAD", "Washington"),
   ("DCA", "Washington"), ("LGA", "New York"), ("BWI", "Baltimore"),
   ("MDW", "Chicago"), ("SAN", "San Diego"), ("TPA", "Tampa"), ("PDX", "Portland"),
   ("AUS", "Austin"), ("CLT", "Charlotte"), ("MSP", "Minneapolis"),
   ("DTW", "Detroit"), ("BOS", "Boston"), ("FLL", "Fort Lauderdale"),
   ("SJC", "San Jose"), ("HNL", "Honolulu"), ("ANC", "Anchorage"),
   ("MIA", "Miami"), ("MCO", "Orlando"), ("PHL", "Philadelphia"),
   ("IAH", "Houston"), ("PHX", "Phoenix"), ("EWR", "Newark"), ("STL", "St. Louis"),
   ("DAL", "Dallas"), ("BNA", "Nashville"), ("MCI", "Kansas City"),
   ("CVG", "Cincinnati"), ("SLC", "Salt Lake City"), ("CLE", "Cleveland"),
   ("SMF", "Sacramento"), ("OAK", "Oakland"), ("SNA", "Santa Ana"),
   ("RDU", "Raleigh"), ("IND", "Indianapolis"), ("CMH", "Columbus"),
   ("JAX", "Jacksonville"), ("RSW", "Fort Myers"), ("COS", "Colorado Springs"),
   ("PIT", "Pittsburgh"), ("BUF", "Buffalo"), ("BUR", "Burbank"),
   ("ABQ", "Albuquerque"), ("LGB", "Long Beach"), ("ONT", "Ontario"),
   ("OGG", "Kahului"), ("KOA", "Kona"), ("MKE", "Milwaukee"), ("OMA", "Omaha"),
   ("OKC", "Oklahoma City"), ("TUL", "Tulsa"), ("ICT", "Wichita"),
   ("DSM", "Des Moines"), ("ROC", "Rochester"), ("ALB", "Albany"),
   ("SYR", "Syracuse"), ("PVD", "Providence"), ("BDL", "Hartford"),
   ("PWM", "Portland"), ("BGR", "Bangor"), ("MHT", "Manchester"),
   ("BTV", "Burlington"), ("GRR", "Grand Rapids"), ("FNT", "Flint"),
   ("LAN", "Lansing"), ("MSN", "Madison"), ("GRB", "Green Bay"),
   ("FAR", "Fargo"), ("BIS", "Bismarck"), ("FSD", "Sioux Falls"),
   ("RAP", "Rapid City"), ("BIL", "Billings"), ("MSO", "Missoula"),
   ("GTF", "Great Falls"), ("BOI", "Boise"), ("GEG", "Spokane"),
   ("FAI", "Fairbanks"), ("JNU", "Juneau")]

/-- `_extract_city_from_airport_code` (lines 710-737): table lookup with
the raw code as default. -/
def extract_city_from_airport_code (airport_code : String) : String :=
  match airport_city_mapping.lookup airport_code with
  | some city => city
  | none => airport_code

/-- Suffix words stripped from free-text airport names (line 746). -/
def airport_name_suffixes : List String :=
  ["International Airport", "International", "Airport", "Regional", "Municipal",
   "Field"]

/-- `_extract_city_from_airport_name` (lines 739-756): strip each known
suffix in turn (each match also strips surrounding whitespace), fall back
to "Unknown" for empty results. -/
def extract_city_from_airport_name (airport_name : String) : String :=
  if airport_name = "" || airport_name = "Unknown" then "Unknown"
  else
    let city := airport_name_suffixes.foldl
      (fun c suf =>
        if pyEndswith c suf then pyStrip (pyDropLast c suf.length) else c)
      airport_name
    if city ≠ "" then city else "Unknown"

/-! ### Typed SerpAPI flight payloads

`_parse_flight_info` consumes provider dicts whose fields it reads with
`.get`; the embedding types those dicts, with `none` for an absent key. -/

structure AirportStop where
  id : Option String
  name : Option String
  time : Option String

structure FlightSegment where
  departure_airport : Option AirportStop
  arrival_airport : Option AirportStop
  airline : Option String
  flight_number : Option String
  airplane : Option String
  aircraft : Option String
  aircraft_type : Option String
  duration : Option Int

structure SerpLayover where
  id : Option String
  name : Option String
  duration : Option Int
  overnight : Option Bool

def emptyStop : AirportStop := ⟨none, none, none⟩

def emptySegment : FlightSegment := ⟨none, none, none, none, none, none, none, none⟩

def emptySerpLayover : SerpLayover := ⟨none, none, none, none⟩

/-- One entry of `best_flights` / `other_flights`. -/
structure SerpFlightData where
  flights : List FlightSegment
  layovers : List SerpLayover
  total_duration : Option Int
  price : Option Int
  type : Option String

structure EndpointOut where
  code : String
  name : String
  city : String
  time : String

structure LayoverInfoOut where
  airport : String
  airport_name : String
  city : String
  duration : String
  arrival_time : String
  departure_time : String
  overnight : Bool

structure ConnectionOut where
  id : String
  flight_number : String
  aircraft : String
  duration : String
  departure : EndpointOut
  arrival : EndpointOut
  layoverInfo : Option LayoverInfoOut

structure LayoverEntryOut where
  airport : String
  airport_name : String
  city : String
  duration : String
  arrival_time : String
  departure_time : String
  travel_date : String

/-- The normalized flight record built by `_parse_flight_info`
(lines 623-644). -/
structure FlightInfo where
  airline_name : String
  airline_code : String
  flight_number : String
  origin : String
  destination : String
  origin_airport_code : String
  destination_airport_code : String
  departure_time : String
  arrival_time : String
  duration : String
  price : Int
  aircraft : String
  layovers : List LayoverEntryOut
  connections : List ConnectionOut
  flights : List FlightSegment
  number_of_stops : Nat
  total_duration : Int
  date : String
  data_source : String
  type : String

/-- The layover info attached to connection `i` (lines 528-599): a
provider entry when one exists at index `i` — substituting 90 minutes when
its duration is missing or non-positive — and a synthesized entry from the
next segment's departure data otherwise. -/
def mkLayoverInfo (flights : List FlightSegment) (serpapi_layovers : List SerpLayover)
    (i : Nat) : LayoverInfoOut :=
  let segment := flights.getD i emptySegment
  let segment_arrival := segment.arrival_airport.getD emptyStop
  if i < serpapi_layovers.length then
    let layover_data := serpapi_layovers.getD i emptySerpLayover
    let d0 := layover_data.duration.getD 0
    let layover_duration_minutes := if d0 ≤ 0 then 90 else d0
    let layover_airport_code := layover_data.id.getD ""
    let layover_airport_name := layover_data.name.getD ""
    let c0 := extract_city_from_airport_code layover_airport_code
    let layover_city :=
      if c0 = layover_airport_code ∧ layover_airport_name ≠ "" then
        extract_city_from_airport_name layover_airport_name
      else c0
    { airport := if layover_airport_code ≠ "" then layover_airport_code else "Unknown",
      airport_name :=
        if layover_airport_name ≠ "" then layover_airport_name else "Unknown Airport",
      city := if layover_city ≠ "" then layover_city else "Unknown City",
      duration := format_duration_from_minutes layover_duration_minutes,
      arrival_time := format_serpapi_time (segment_arrival.time.getD ""),
      departure_time := format_serpapi_time
        (((flights.getD (i + 1) emptySegment).departure_airport.getD emptyStop).time.getD ""),
      overnight := layover_data.overnight.getD false }
  else
    let next_departure := (flights.getD (i + 1) emptySegment).departure_airport.getD emptyStop
    { airport := next_departure.id.getD "Unknown",
      airport_name := next_departure.name.getD "Unknown Airport",
      city := extract_city_from_airport_code (next_departure.id.getD "Unknown"),
      duration := "Unknown",
      arrival_time := format_serpapi_time (segment_arrival.time.getD ""),
      departure_time := format_serpapi_time (next_departure.time.getD ""),
      overnight := false }

/-- The connection object for segment `i` (lines 488-525), carrying
layover info for every segment but the last. -/
def mkConnection (flights : List FlightSegment) (serpapi_layovers : List SerpLayover)
    (airline_name : String) (i : Nat) : ConnectionOut :=
  let segment := flights.getD i emptySegment
  let segment_departure := segment.departure_airport.getD emptyStop
  let segment_arrival := segment.arrival_airport.getD emptyStop
  let segment_flight_number := segment.flight_number.getD "Unknown"
  let segment_airline_code :=
    extract_airline_code segment_flight_number (segment.airline.getD airline_name)
  let segment_clean_number := clean_flight_number segment_flight_number segment_airline_code
  { id := "segment_" ++ toString i,
    flight_number := segment_airline_code ++ segment_clean_number,
    aircraft := segment.airplane.getD (segment.aircraft.getD "Unknown"),
    duration := format_duration_from_minutes (segment.duration.getD 0),
    departure :=
      { code := segment_departure.id.getD "Unknown",
        name := segment_departure.name.getD "Unknown",
        city := extract_city_from_airport_code (segment_departure.id.getD "Unknown"),
        time := format_serpapi_time (segment_departure.time.getD "Unknown") },
    arrival :=
      { code := segment_arrival.id.getD "Unknown",
        name := segment_arrival.name.getD "Unknown",
        city := extract_city_from_airport_code (segment_arrival.id.getD "Unknown"),
        time := format_serpapi_time (segment_arrival.time.getD "Unknown") },
    layoverInfo :=
      if i + 1 < flights.length then some (mkLayoverInfo flights serpapi_layovers i)
      else none }

/-- The backward-compatibility layovers-array entry built from a layover
info (lines 573-581 and 602-610). -/
def mkLayoverEntry (date : String) (li : LayoverInfoOut) : LayoverEntryOut :=
  { airport := li.airport, airport_name := li.airport_name, city := li.city,
    duration := li.duration, arrival_time := li.arrival_time,
    departure_time := li.departure_time, travel_date := date }

/-- `_parse_flight_info` (lines 402-652).  The per-iteration connection
and layover appends of the source loop are expressed as a map over the
segment indices followed by collecting the layover infos, preserving
order. -/
def parse_flight_info (flight_data : SerpFlightData) (origin destination date : String) :
    Option FlightInfo :=
  let flights := flight_data.flights
  if flights.isEmpty then none
  else
    let first_flight := flights.headD emptySegment
    let airline_name := first_flight.airline.getD "Unknown"
    let flight_number := first_flight.flight_number.getD "Unknown"
    let airline_code := extract_airline_code flight_number airline_name
    let cleaned_number := clean_flight_number flight_number airline_code
    let departure_airport := first_flight.departure_airport.getD emptyStop
    let arrival_airport := (flights.getLastD emptySegment).arrival_airport.getD emptyStop
    let total_duration_minutes := flight_data.total_duration.getD 0
    let serpapi_layovers := flight_data.layovers
    let has_layovers := !serpapi_layovers.isEmpty || decide (flights.length > 1)
    let connections :=
      if has_layovers then
        (List.range flights.length).map (mkConnection flights serpapi_layovers airline_name)
      else []
    let layovers := connections.filterMap (fun c => c.layoverInfo.map (mkLayoverEntry date))
    some
      { airline_name := airline_name,
        airline_code := airline_code,
        flight_number := airline_code ++ cleaned_number,
        origin := origin, destination := destination,
        origin_airport_code := origin, destination_airport_code := destination,
        departure_time := format_serpapi_time (departure_airport.time.getD "Unknown"),
        arrival_time := format_serpapi_time (arrival_airport.time.getD "Unknown"),
        duration :=
          if total_duration_minutes > 0 then
            format_duration_from_minutes total_duration_minutes
          else "Unknown",
        price := flight_data.price.getD 0,
        aircraft := first_flight.airplane.getD
          (first_flight.aircraft.getD (first_flight.aircraft_type.getD "Unknown")),
        layovers := layovers, connections := connections, flights := flights,
        number_of_stops := layovers.length,
        total_duration := total_duration_minutes,
        date := date, data_source := "SerpAPI",
        type := flight_data.type.getD "One way" }

/-! ### SerpAPI flight search and the route pipeline
(`data_analyst_agent.py`, `_call_serpapi_flights` lines 233-326,
`_extract_flight_data` lines 364-400, `analyze_route` lines 58-102) -/

/-- The search provider's parsed response body, typed; keys the code never
reads are elided. -/
structure SerpApiData where
  best_flights : Option (List SerpFlightData)
  other_flights : Option (List SerpFlightData)
  flights : Option (List SerpFlightData)
  error : Option String
  message : Option String
  account_status : Option String

/-- Outcome of the `requests.get` round trip as the code observes it:
a parsed 2xx JSON body; a `RequestException` (network failure or
`raise_for_status`, whose message embeds the status code and reason, e.g.
"429 Client Error: Too Many Requests for url: ..."); or a
`json.JSONDecodeError` from `.json()`. -/
inductive HttpOutcome where
  | success (body : SerpApiData) : HttpOutcome
  | httpError (msg : String) : HttpOutcome
  | jsonError (msg : String) : HttpOutcome

/-- The distinguished rate-limit payload (lines 312-316). -/
def rate_limit_payload : SerpApiData :=
  { best_flights := none, other_flights := none, flights := none,
    error := some "SerpAPI rate limit exceeded",
    message := some "Please upgrade your SerpAPI plan or try again later",
    account_status := some "Rate limit exceeded" }

/-- `'k' in data and data['k']` for an optional list field. -/
def presentNonempty (o : Option (List SerpFlightData)) : Bool :=
  match o with
  | some l => !l.isEmpty
  | none => false

/-- `_call_serpapi_flights` (lines 233-326): a body with flights is
returned whole; a flightless body yields `None`; a `RequestException`
whose text mentions "429" or "Too Many Requests" yields the distinguished
rate-limit dict, any other exception `None`. -/
def call_serpapi_flights (outcome : HttpOutcome) : Option SerpApiData :=
  match outcome with
  | .success data =>
    if presentNonempty data.best_flights then some data
    else if presentNonempty data.other_flights then some data
    else if presentNonempty data.flights then some data
    else none
  | .httpError msg =>
    if strContains msg "429" || strContains msg "Too Many Requests" then
      some rate_limit_payload
    else none
  | .jsonError _ => none

/-- `_extract_flight_data` (lines 364-400): concatenate best and other
flights and parse each, dropping unparsable entries. -/
def extract_flight_data (serpapi_data : SerpApiData) (origin destination date : String) :
    List FlightInfo :=
  let all_flights := serpapi_data.best_flights.getD [] ++ serpapi_data.other_flights.getD []
  if all_flights.isEmpty then []
  else all_flights.filterMap (fun fd => parse_flight_info fd origin destination date)

structure RouteInfo where
  origin : String
  destination : String
  date : String
  connections : List String

/-- The dict `analyze_route` returns: a success flag, an optional
human-readable message, the flight list (capped at 10) and, on success,
route metadata. -/
structure RouteResult where
  success : Bool
  message : Option String
  flights : List FlightInfo
  route_info : Option RouteInfo

/-- `analyze_route` (lines 58-102): a `None`-ish search result yields the
failure dict; any returned dict — including the rate-limit payload — is
handed to `_extract_flight_data` and reported with `success: True`. -/
def analyze_route (outcome : HttpOutcome) (origin destination date : String)
    (connections : Option (List String)) : RouteResult :=
  match call_serpapi_flights outcome with
  | none =>
    { success := false, message := some "No flights found for this route",
      flights := [], route_info := none }
  | some data =>
    { success := true, message := none,
      flights := (extract_flight_data data origin destination date).take 10,
      route_info := some
        { origin := origin, destination := destination, date := date,
          connections := connections.getD [] } }

/-- C6 counterexample: on an HTTP 429 from the provider, the pipeline's
caller receives `success: true` with an empty flight list and no message —
a generic empty result carrying no rate-limit identification — because
`analyze_route` treats the truthy rate-limit dict as search data. -/
theorem rate_limit_pipeline_counterexample :
    analyze_route
        (.httpError "429 Client Error: Too Many Requests for url: https://serpapi.com/search")
        "JFK" "LAX" "2025-07-12" none
      = { success := true, message := none, flights := [],
          route_info := some
            { origin := "JFK", destination := "LAX", date := "2025-07-12",
              connections := [] } } := rfl

/-- C6 (amended): `_call_serpapi_flights` itself does yield the
distinguished rate-limit payload — not `None` — to its caller on any
request exception mentioning "429" or "Too Many Requests"; but
`analyze_route` then reports `success: true` with an empty flight list, so
the rate-limit condition does not reach the pipeline's caller. -/
theorem rate_limit_distinguished_inner (msg origin destination date : String)
    (h : strContains msg "429" = true ∨ strContains msg "Too Many Requests" = true) :
    call_serpapi_flights (.httpError msg) = some rate_limit_payload ∧
    rate_limit_payload.error = some "SerpAPI rate limit exceeded" ∧
    analyze_route (.httpError msg) origin destination date none
      = { success := true, message := none, flights := [],
          route_info := some
            { origin := origin, destination := destination, date := date,
              connections := [] } } := by
  have hcond : (strContains msg "429" || strContains msg "Too Many Requests") = true := by
    rcases h with h | h <;> simp [h]
  have hcall : call_serpapi_flights (.httpError msg) = some rate_limit_payload := by
    simp only [call_serpapi_flights, hcond, if_true]
  refine ⟨hcall, rfl, ?_⟩
  simp only [analyze_route, hcall]
  rfl

/-- Witness for C6's amended statement at a concrete 429 message. -/
theorem rate_limit_distinguished_inner_witness :
    call_serpapi_flights
        (.httpError "429 Client Error: Too Many Requests for url: https://serpapi.com/search")
      = some rate_limit_payload ∧
    rate_limit_payload.error = some "SerpAPI rate limit exceeded" ∧
    analyze_route
        (.httpError "429 Client Error: Too Many Requests for url: https://serpapi.com/search")
        "SFO" "SEA" "2025-08-01" none
      = { success := true, message := none, flights := [],
          route_info := some
            { origin := "SFO", destination := "SEA", date := "2025-08-01",
              connections := [] } } :=
  rate_limit_distinguished_inner
    "429 Client Error: Too Many Requests for url: https://serpapi.com/search"
    "SFO" "SEA" "2025-08-01" (Or.inl rfl)

/-! ### C10: provider-supplied vs synthesized layover durations -/

lemma append_ne_unknown (s t : String) (c : Char) (ht : t.data.getLast? = some c)
    (hnil : t.data ≠ []) (hc : c ≠ 'n') : s ++ t ≠ "Unknown" := by
  intro h
  have hd := congrArg String.data h
  rw [String.data_append] at hd
  have h1 : (s.data ++ t.data).getLast? = some c := by
    rw [List.getLast?_append_of_ne_nil s.data hnil, ht]
  rw [hd] at h1
  have h2 : ("Unknown" : String).data.getLast? = some 'n' := rfl
  rw [h2] at h1
  exact hc (Option.some.inj h1).symm

lemma format_duration_from_minutes_pos_ne_unknown (m : Int) (hm : 0 < m) :
    format_duration_from_minutes m ≠ "Unknown" := by
  show (if m ≤ 0 then "Unknown"
    else
      if Int.fdiv m 60 > 0 ∧ Int.emod m 60 > 0 then
        toString (Int.fdiv m 60) ++ "h " ++ toString (Int.emod m 60) ++ "m"
      else if Int.fdiv m 60 > 0 then toString (Int.fdiv m 60) ++ "h"
      else toString (Int.emod m 60) ++ "m") ≠ "Unknown"
  rw [if_neg (by omega)]
  split_ifs with h1 h2
  · exact append_ne_unknown _ "m" 'm' rfl (by decide) (by decide)
  · exact append_ne_unknown _ "h" 'h' rfl (by decide) (by decide)
  · exact append_ne_unknown _ "m" 'm' rfl (by decide) (by decide)

lemma filterMap_eq_map_of_forall_some {α β : Type} (f : α → Option β) (g : α → β)
    (l : List α) (h : ∀ a ∈ l, f a = some (g a)) : l.filterMap f = l.map g := by
  induction l with
  | nil => rfl
  | cons hd tl ih =>
    rw [List.filterMap_cons, h hd (by simp), List.map_cons,
      ih (fun a ha => h a (by simp [ha]))]

lemma mkConnection_layoverInfo (flights : List FlightSegment)
    (serpapi_layovers : List SerpLayover) (airline_name : String) (i : Nat) :
    (mkConnection flights serpapi_layovers airline_name i).layoverInfo
      = if i + 1 < flights.length then some (mkLayoverInfo flights serpapi_layovers i)
        else none := rfl

lemma parse_flight_info_layovers (fd : SerpFlightData) (origin destination date : String)
    (info : FlightInfo) (hres : parse_flight_info fd origin destination date = some info)
    (hmulti : 1 < fd.flights.length) :
    info.layovers = (List.range (fd.flights.length - 1)).map
      (fun j => mkLayoverEntry date (mkLayoverInfo fd.flights fd.layovers j)) := by
  have hne : fd.flights.isEmpty = false := by
    cases hF : fd.flights with
    | nil => rw [hF] at hmulti; simp at hmulti
    | cons a t => rfl
  have hhl : (!fd.layovers.isEmpty || decide (fd.flights.length > 1)) = true := by
    simp [hmulti]
  unfold parse_flight_info at hres
  simp only [hne, Bool.false_eq_true, if_false, hhl, if_true, Option.some.injEq] at hres
  subst hres
  show ((List.range fd.flights.length).map
      (mkConnection fd.flights fd.layovers
        ((fd.flights.headD emptySegment).airline.getD "Unknown"))).filterMap
      (fun c => c.layoverInfo.map (mkLayoverEntry date))
    = _
  rw [List.filterMap_map]
  have hrange : List.range fd.flights.length
      = List.range (fd.flights.length - 1) ++ [fd.flights.length - 1] := by
    have h2 : fd.flights.length - 1 + 1 = fd.flights.length := by omega
    calc List.range fd.flights.length
        = List.range (fd.flights.length - 1 + 1) := by rw [h2]
      _ = List.range (fd.flights.length - 1) ++ [fd.flights.length - 1] :=
          List.range_succ _
  rw [hrange, List.filterMap_append]
  have hlast : ((fun c => c.layoverInfo.map (mkLayoverEntry date)) ∘
      mkConnection fd.flights fd.layovers
        ((fd.flights.headD emptySegment).airline.getD "Unknown"))
      (fd.flights.length - 1) = none := by
    simp only [Function.comp_apply, mkConnection_layoverInfo]
    rw [if_neg (by omega)]
    rfl
  rw [List.filterMap_cons, hlast, List.filterMap_nil, List.append_nil]
  apply filterMap_eq_map_of_forall_some
  intro j hj
  have hjlt : j < fd.flights.length - 1 := List.mem_range.mp hj
  simp only [Function.comp_apply, mkConnection_layoverInfo]
  rw [if_pos (by omega)]
  rfl

/-- C10: in `_parse_flight_info`, a provider-supplied layover entry whose
duration is missing or non-positive has 90 minutes substituted before
formatting, so its normalized record reads "1h 30m" and provider-supplied
layovers never read "Unknown"; a synthesized layover (a segment gap with
no provider entry) reads "Unknown". -/
theorem provider_layover_duration_defaults (fd : SerpFlightData)
    (origin destination date : String) (i : Nat) (hi : i + 1 < fd.flights.length) :
    (∀ ld, fd.layovers[i]? = some ld →
      ∃ info le, parse_flight_info fd origin destination date = some info ∧
        info.layovers[i]? = some le ∧
        (ld.duration.getD 0 ≤ 0 → le.duration = "1h 30m") ∧
        le.duration ≠ "Unknown") ∧
    (fd.layovers.length ≤ i →
      ∃ info le, parse_flight_info fd origin destination date = some info ∧
        info.layovers[i]? = some le ∧ le.duration = "Unknown") := by
  have hmulti : 1 < fd.flights.length := by omega
  have hne : fd.flights.isEmpty = false := by
    cases hF : fd.flights with
    | nil => rw [hF] at hmulti; simp at hmulti
    | cons a t => rfl
  obtain ⟨info, hres⟩ : ∃ info, parse_flight_info fd origin destination date = some info := by
    unfold parse_flight_info
    simp only [hne, Bool.false_eq_true, if_false]
    exact ⟨_, rfl⟩
  have hlay := parse_flight_info_layovers fd origin destination date info hres hmulti
  have hget : info.layovers[i]?
      = some (mkLayoverEntry date (mkLayoverInfo fd.flights fd.layovers i)) := by
    rw [hlay, List.getElem?_map, List.getElem?_range (by omega : i < fd.flights.length - 1)]
    rfl
  constructor
  · intro ld hld
    have hilt : i < fd.layovers.length := by
      by_contra hc
      rw [List.getElem?_eq_none (by omega)] at hld
      cases hld
    have hgetD : fd.layovers.getD i emptySerpLayover = ld := by
      rw [List.getD_eq_getElem?_getD, hld]
      rfl
    refine ⟨info, mkLayoverEntry date (mkLayoverInfo fd.flights fd.layovers i),
      hres, hget, ?_, ?_⟩
    · intro hd0
      show (mkLayoverInfo fd.flights fd.layovers i).duration = "1h 30m"
      unfold mkLayoverInfo
      rw [if_pos hilt]
      show format_duration_from_minutes
        (if (fd.layovers.getD i emptySerpLayover).duration.getD 0 ≤ 0 then 90
         else (fd.layovers.getD i emptySerpLayover).duration.getD 0) = "1h 30m"
      rw [hgetD, if_pos hd0]
      rfl
    · show (mkLayoverInfo fd.flights fd.layovers i).duration ≠ "Unknown"
      unfold mkLayoverInfo
      rw [if_pos hilt]
      show format_duration_from_minutes
        (if (fd.layovers.getD i emptySerpLayover).duration.getD 0 ≤ 0 then 90
         else (fd.layovers.getD i emptySerpLayover).duration.getD 0) ≠ "Unknown"
      rw [hgetD]
      split_ifs with hd0
      · exact format_duration_from_minutes_pos_ne_unknown 90 (by omega)
      · exact format_duration_from_minutes_pos_ne_unknown _ (by omega)
  · intro hge
    refine ⟨info, mkLayoverEntry date (mkLayoverInfo fd.flights fd.layovers i),
      hres, hget, ?_⟩
    show (mkLayoverInfo fd.flights fd.layovers i).duration = "Unknown"
    unfold mkLayoverInfo
    rw [if_neg (by omega)]

/-- Concrete fixtures for the C10 witness: a two-segment itinerary, once
with a provider layover entry lacking a duration and once with no provider
layover entry at all. -/
def segW1 : FlightSegment :=
  { departure_airport := some ⟨some "JFK", some "John F. Kennedy International Airport",
      some "2025-07-12 06:00"⟩,
    arrival_airport := some ⟨some "IAH", some "George Bush Intercontinental Airport",
      some "2025-07-12 09:00"⟩,
    airline := some "United Airlines", flight_number := some "UA 100",
    airplane := some "Boeing 737", aircraft := none, aircraft_type := none,
    duration := some 180 }

def segW2 : FlightSegment :=
  { departure_airport := some ⟨some "IAH", some "George Bush Intercontinental Airport",
      some "2025-07-12 10:30"⟩,
    arrival_airport := some ⟨some "LAX", some "Los Angeles International Airport",
      some "2025-07-12 12:00"⟩,
    airline := some "United Airlines", flight_number := some "UA 200",
    airplane := some "Boeing 737", aircraft := none, aircraft_type := none,
    duration := some 210 }

def layW : SerpLayover :=
  { id := some "IAH", name := some "George Bush Intercontinental Airport",
    duration := none, overnight := none }

def fdWithLayover : SerpFlightData :=
  { flights := [segW1, segW2], layovers := [layW], total_duration := some 480,
    price := some 350, type := some "One way" }

def fdWithoutLayover : SerpFlightData :=
  { flights := [segW1, segW2], layovers := [], total_duration := some 480,
    price := some 350, type := some "One way" }

/-- Witness for C10 at the two concrete fixtures. -/
theorem provider_layover_duration_defaults_witness :
    (∃ info le, parse_flight_info fdWithLayover "JFK" "LAX" "2025-07-12" = some info ∧
      info.layovers[0]? = some le ∧
      (layW.duration.getD 0 ≤ 0 → le.duration = "1h 30m") ∧
      le.duration ≠ "Unknown") ∧
    (∃ info le, parse_flight_info fdWithoutLayover "JFK" "LAX" "2025-07-12" = some info ∧
      info.layovers[0]? = some le ∧ le.duration = "Unknown") :=
  ⟨(provider_layover_duration_defaults fdWithLayover "JFK" "LAX" "2025-07-12" 0
      (by decide)).1 layW rfl,
   (provider_layover_duration_defaults fdWithoutLayover "JFK" "LAX" "2025-07-12" 0
      (by decide)).2 (by decide)⟩

end FlightRisk
